import Mathlib

/-
Verification of the s4 server core (src/s4/__init__.py, src/s4/server.py)
against its natural-language specification.

The Python code is shallowly embedded: the filesystem is an association
list from paths to file data, the uuid-keyed job table is an association
list, subprocess results (the recv/send/xxh3 copiers, user commands) are
oracle inputs, and each HTTP handler is a pure function from server state
and request to the new state plus an outcome (a response, a raised Python
exception, or a hang when an await never resolves).
-/

/-- Result of a Python-level exception escaping a handler or killing a task. -/
inductive PyErr
  | assertionError
  | exception
  | keyError
  | unboundLocalError
  | osError
deriving DecidableEq

/-- `shell.run` / `s4.run` outcome: `{'exitcode': ..., 'stdout': ..., 'stderr': ...}`.
The xxh3-based copiers report the hex digest on stderr. -/
structure RunResult where
  exitcode : Nat
  stdout : String
  stderr : String
deriving DecidableEq

/-- A regular file: its byte content and whether the read-only bits
(`S_IRUSR|S_IRGRP|S_IROTH`) have been set by `os.chmod`. -/
structure FileData where
  content : String
  readonly : Bool
deriving DecidableEq

/-- The data-root filesystem, as a finite map from relative paths to files.
Directories are implicit (`os.makedirs` is a no-op in this model). -/
structure FS where
  files : List (String × FileData)
deriving DecidableEq

/-- First-match lookup in an association list (Python `dict` access). -/
def alookup {β : Type} (l : List (String × β)) (p : String) : Option β :=
  match l with
  | [] => none
  | e :: t => if e.1 = p then some e.2 else alookup t p

/-- Drop every entry with the given key (Python `dict.pop`). -/
def aerase {β : Type} (l : List (String × β)) (p : String) : List (String × β) :=
  match l with
  | [] => []
  | e :: t => if e.1 = p then aerase t p else e :: aerase t p

def FS.lookup (fs : FS) (p : String) : Option FileData :=
  alookup fs.files p

/-- `os.path.isfile`. -/
def FS.isfile (fs : FS) (p : String) : Bool :=
  (fs.lookup p).isSome

/-- Content of a file, `none` when absent. -/
def FS.read (fs : FS) (p : String) : Option String :=
  (fs.lookup p).map (·.content)

/-- Read-only bit of a file (`false` when absent). -/
def FS.readonly (fs : FS) (p : String) : Bool :=
  match fs.lookup p with
  | none => false
  | some d => d.readonly

/-- Remove a path if present (`os.remove` / one step of `rm -f`). -/
def FS.erase (fs : FS) (p : String) : FS :=
  ⟨aerase fs.files p⟩

def FS.set (fs : FS) (p : String) (d : FileData) : FS :=
  ⟨(p, d) :: (fs.erase p).files⟩

/-- `open(p, 'w'); f.write(c)`: create or truncate a writable file. -/
def FS.write (fs : FS) (p c : String) : FS :=
  fs.set p ⟨c, false⟩

/-- `os.chmod(p, S_IRUSR|S_IRGRP|S_IROTH)`; no-op on a missing file. -/
def FS.chmod_ro (fs : FS) (p : String) : FS :=
  match fs.lookup p with
  | none => fs
  | some d => fs.set p ⟨d.content, true⟩

/-- `os.rename(src, dst)`: moves the file, keeping content and mode;
callers of this model check `src` exists first (otherwise Python raises). -/
def FS.rename (fs : FS) (src dst : String) : FS :=
  match fs.lookup src with
  | none => fs
  | some d => (fs.erase src).set dst d

/-- File set removed by `rm -rf pre+'*'` inside the data root: every path
that extends `pre` (shell glob expansion of the trailing star; dotfiles
directly at the glob position are ignored by this model). -/
def FS.removeGlob (fs : FS) (pre : String) : FS :=
  ⟨fs.files.filter (fun e => !e.1.startsWith pre)⟩

/-- Modelled from the spec: `s4.delete` is referenced by `server.py` and
`cli.py` but its definition is not under `src/`.  The spec describes the
deletions it performs with "rm -f semantics (absent is OK)" and, on
confirm failure, "delete blob, temp, and sidecar": each given path is
removed if present, unconditionally. -/
def s4_delete (fs : FS) (paths : List String) : FS :=
  paths.foldl FS.erase fs

-- Association-list lemmas ---------------------------------------------------

theorem alookup_aerase {β : Type} (l : List (String × β)) (p q : String) :
    alookup (aerase l p) q = if q = p then none else alookup l q := by
  induction l with
  | nil => simp [aerase, alookup]
  | cons hd tl ih =>
    by_cases hh : hd.1 = p
    · by_cases hq : q = p
      · subst hq
        simp [aerase, alookup, hh, ih]
      · have h1 : ¬ hd.1 = q := by rw [hh]; exact fun hc => hq hc.symm
        have h2 : ¬ p = q := fun hc => hq hc.symm
        simp [aerase, alookup, hh, hq, ih, h1, h2]
    · by_cases h3 : hd.1 = q
      · have hq : ¬ q = p := by rw [← h3]; exact fun hc => hh hc
        simp [aerase, alookup, hh, h3, hq]
      · simp [aerase, alookup, hh, h3, ih]

theorem FS.lookup_erase (fs : FS) (p q : String) :
    (fs.erase p).lookup q = if q = p then none else fs.lookup q := by
  simp [FS.erase, FS.lookup, alookup_aerase]

theorem FS.lookup_set (fs : FS) (p q : String) (d : FileData) :
    (fs.set p d).lookup q = if q = p then some d else fs.lookup q := by
  by_cases h : q = p
  · simp [FS.set, FS.lookup, alookup, h]
  · have h2 : ¬ p = q := fun hc => h hc.symm
    simp only [FS.set, FS.lookup, alookup, h2, if_neg, if_false]
    have := FS.lookup_erase fs p q
    simp only [FS.lookup] at this
    simp [this, h]

theorem FS.isfile_set (fs : FS) (p q : String) (d : FileData) :
    (fs.set p d).isfile q = if q = p then true else fs.isfile q := by
  simp only [FS.isfile, FS.lookup_set]
  split <;> simp

theorem FS.isfile_erase (fs : FS) (p q : String) :
    (fs.erase p).isfile q = if q = p then false else fs.isfile q := by
  simp only [FS.isfile, FS.lookup_erase]
  split <;> simp

theorem FS.isfile_write (fs : FS) (p q c) :
    (fs.write p c).isfile q = if q = p then true else fs.isfile q := by
  simp [FS.write, FS.isfile_set]

theorem FS.isfile_chmod_ro (fs : FS) (p q : String) :
    (fs.chmod_ro p).isfile q = fs.isfile q := by
  unfold FS.chmod_ro
  cases h : fs.lookup p with
  | none => rfl
  | some d =>
    rw [FS.isfile_set]
    split
    · next he => simp [FS.isfile, he, h]
    · rfl

theorem FS.isfile_rename (fs : FS) (src dst q : String) (h : fs.isfile src = true) :
    (fs.rename src dst).isfile q =
      if q = dst then true else if q = src then false else fs.isfile q := by
  unfold FS.rename
  cases hl : fs.lookup src with
  | none => simp [FS.isfile, hl] at h
  | some d => rw [FS.isfile_set, FS.isfile_erase]

theorem FS.isfile_s4_delete (fs : FS) (paths : List String) (q : String) :
    (s4_delete fs paths).isfile q = if q ∈ paths then false else fs.isfile q := by
  induction paths generalizing fs with
  | nil => simp [s4_delete]
  | cons hd tl ih =>
    by_cases h1 : q = hd
    · subst h1
      simp only [s4_delete, List.foldl] at *
      rw [ih]
      simp [FS.isfile_erase]
    · simp only [s4_delete, List.foldl] at *
      rw [ih]
      by_cases h2 : q ∈ tl <;> simp [h1, h2, FS.isfile_erase]

-- Python string helpers, executable in the kernel -----------------------------

/-- Is the first list a prefix of the second? -/
def beginsWith : List Char → List Char → Bool
  | [], _ => true
  | _ :: _, [] => false
  | c :: cs, d :: ds => c = d && beginsWith cs ds

def hasChar : List Char → Char → Bool
  | [], _ => false
  | c :: cs, d => c = d || hasChar cs d

/-- The characters after the last occurrence of `sep` (the whole list when
`sep` does not occur): the semantics of Python's `s.split(sep)[-1]` for the
separators used here (`"s4://"` and `"/"`, neither of which can overlap
itself). -/
def afterLastSeq (sep : List Char) (s : List Char) : List Char :=
  (takeUntil sep s.reverse).reverse
where takeUntil (sep : List Char) : List Char → List Char
  | [] => []
  | c :: rest => if beginsWith sep.reverse (c :: rest) then [] else c :: takeUntil sep rest

/-- Python `key.split('s4://')[-1]`. -/
def stripScheme (s : String) : String :=
  ⟨afterLastSeq "s4://".data s.data⟩

/-- Python `path.split('/')[-1]`. -/
def lastSegment (s : String) : String :=
  ⟨afterLastSeq "/".data s.data⟩

/-- Python `c in s` for a single character. -/
def strContains (s : String) (c : Char) : Bool := hasChar s.data c

/-- Python `s.startswith(pre)`. -/
def strStarts (s pre : String) : Bool := beginsWith pre.data s.data

/-- Python `s.endswith(suf)`. -/
def strEnds (s suf : String) : Bool := beginsWith suf.data.reverse s.data.reverse

/-- Python `s.isdigit()`: non-empty and all digits. -/
def pyIsDigit (s : String) : Bool :=
  !s.data.isEmpty && s.data.all Char.isDigit

-- 4.A Shard map: s4.pick_server (src/s4/__init__.py:60-68) --------------------

/-- `s4.pick_server`: strip the scheme; when the last path segment is all
digits hash only that segment, otherwise hash the whole post-scheme string;
index the server list by the hash modulo its length and join `address:port`.
The external `xxh3.oneshot_int` is abstracted as the `hash` parameter, and
`servers()` (the parsed, normalized configuration) as the `srvs` parameter.
An empty server list makes the Python raise (`% 0`): `none` here. -/
def pick_server (hash : String → Nat) (srvs : List (String × String))
    (s3_url : String) : Option String :=
  if h : srvs.length = 0 then none
  else
    let s := stripScheme s3_url
    let s := if pyIsDigit (lastSegment s) then lastSegment s else s
    let e := srvs.get ⟨hash s % srvs.length, Nat.mod_lt _ (Nat.pos_of_ne_zero h)⟩
    some (e.1 ++ ":" ++ e.2)

/-- Claim C1: for every fixed non-empty server list and every two keys whose
last path segment (after stripping the `s4://` scheme) is the same all-digit
string, `pick_server` returns the same server address for both keys, whatever
their buckets or parent paths, and whatever the hash function does. -/
theorem C1_pick_server_colocation (hash : String → Nat)
    (srvs : List (String × String)) (hne : srvs ≠ []) (k1 k2 : String)
    (hseg : lastSegment (stripScheme k1) = lastSegment (stripScheme k2))
    (hdig : pyIsDigit (lastSegment (stripScheme k1)) = true) :
    pick_server hash srvs k1 = pick_server hash srvs k2 := by
  have hlen : ¬ srvs.length = 0 := by
    intro h
    exact hne (List.length_eq_zero.mp h)
  have hdig2 : pyIsDigit (lastSegment (stripScheme k2)) = true := hseg ▸ hdig
  simp only [pick_server, dif_neg hlen, hdig, hdig2, if_true, hseg]

/-- Witness for C1 at concrete keys `s4://b1/job/0001` and `s4://b2/x/y/0001`
with a two-server list. -/
theorem C1_witness :
    pick_server String.length [("10.0.0.1", "8080"), ("10.0.0.2", "8080")] "s4://b1/job/0001"
      = pick_server String.length [("10.0.0.1", "8080"), ("10.0.0.2", "8080")] "s4://b2/x/y/0001" :=
  C1_pick_server_colocation String.length _ (by decide) _ _ (by decide) (by decide)

-- 4.B Path layout and sidecars (src/s4/server.py:54-67) -----------------------

/-- `checksum_path(path) = path + '.xxh3'`.  The Python function first runs
`assert not path.endswith('/')`; the operations below test `strEnds path "/"`
at the point of their first `checksum_path` call (yielding the AssertionError
outcome of that call site) and use this pure suffix afterwards. -/
def checksum_path (path : String) : String := path ++ ".xxh3"

/-- `exists(path)`: both the blob and its sidecar are regular files.  Python's
`and` short-circuits, so `checksum_path`'s assert is only reached when `path`
is a file. -/
def existsE (fs : FS) (path : String) : Except PyErr Bool :=
  if fs.isfile path = false then .ok false
  else if strEnds path "/" then .error .assertionError
  else .ok (fs.isfile (checksum_path path))

-- 4.E Job table (io_jobs, src/s4/server.py:25,46-52) --------------------------

/-- An `io_jobs` record.  `pending` is the `{'start': ...}` placeholder made
by `new_uuid`; `putJob` holds the receive copier's future plus `temp_path`
and `path`; `getJob` holds the send copier's future plus `disk_checksum`.
A future is modelled by the `RunResult` it eventually resolves to. -/
inductive Job
  | pending (start : Nat)
  | putJob (start : Nat) (future : RunResult) (temp_path : String) (path : String)
  | getJob (start : Nat) (future : RunResult) (disk_checksum : String)
deriving DecidableEq

def Job.start : Job → Nat
  | .pending s => s
  | .putJob s _ _ _ => s
  | .getJob s _ _ => s

/-- `job['future']`, `none` when the key is missing (Python `KeyError`). -/
def Job.future? : Job → Option RunResult
  | .pending _ => none
  | .putJob _ f _ _ => some f
  | .getJob _ f _ => some f

/-- `job['path']`, `none` when the key is missing. -/
def Job.path? : Job → Option String
  | .putJob _ _ _ p => some p
  | _ => none

/-- `job['temp_path']`, `none` when the key is missing. -/
def Job.temp_path? : Job → Option String
  | .putJob _ _ tp _ => some tp
  | _ => none

/-- `job['disk_checksum']`, `none` when the key is missing. -/
def Job.disk_checksum? : Job → Option String
  | .getJob _ _ c => some c
  | _ => none

/-- `io_jobs[u] = j` (insert or overwrite). -/
def setJob (jobs : List (String × Job)) (u : String) (j : Job) :
    List (String × Job) :=
  (u, j) :: aerase jobs u

/-- The state of one server node: its data-root filesystem, the `io_jobs`
table, and the monotonic clock. -/
structure Server where
  fs : FS
  io_jobs : List (String × Job)
  now : Nat
deriving DecidableEq

/-- An HTTP response value `{'code': ..., 'body': ...}`. -/
structure Response where
  code : Nat
  body : Option String
deriving DecidableEq

/-- What a handler invocation does: return a response, let a Python exception
escape to the web layer, or never complete (an `await` that never resolves). -/
inductive HResult
  | resp (r : Response)
  | err (e : PyErr)
  | hang
deriving DecidableEq

/-- `new_uuid` (src/s4/server.py:46-52): up to ten fresh `uuid.uuid4()` draws
(the oracle list `cands`, truncated to ten by the caller); the first draw not
already in the table is registered with a `{'start': now}` record; after ten
collisions `assert False`. -/
def new_uuid (jobs : List (String × Job)) (now : Nat) :
    List String → Except PyErr (String × List (String × Job))
  | [] => .error .assertionError
  | u :: rest =>
    match alookup jobs u with
    | some _ => new_uuid jobs now rest
    | none => .ok (u, (u, Job.pending now) :: jobs)

/-- `json.dumps([uuid, port])`, the 200 body of prepare_put. -/
def jsonUuidPort (u : String) (port : Nat) : String :=
  "[\"" ++ u ++ "\", " ++ Nat.repr port ++ "]"

-- Put path (src/s4/server.py:94-158) ------------------------------------------

/-- `prepare_put` (solo pool, src/s4/server.py:94-100): make parent dirs
(implicit here), assert neither the blob nor its sidecar exists, create the
empty sidecar, and hand back the fresh temp path and port.  `temp_path` is
the oracle for `s4.new_temp_path('_tempfiles')` and `port` the oracle for
`util.net.free_port()`. -/
def prepare_put (fs : FS) (path temp_path : String) (port : Nat) :
    FS × Except PyErr (String × Nat) :=
  if fs.isfile path then (fs, .error .assertionError)
  else if strEnds path "/" then (fs, .error .assertionError)
  else if fs.isfile (checksum_path path) then (fs, .error .assertionError)
  else (fs.write (checksum_path path) "", .ok (temp_path, port))

/-- Oracles of one `prepare_put` request: the `s4.on_this_server(key)`
verdict, the fresh temp path, the free port, the candidate uuids, the
eventual result of the `recv {port} | xxh3 --stream > {temp_path}` copier,
and whether the `started` gate ever resolves. -/
structure PutEnv where
  owned : Bool
  temp_path : String
  port : Nat
  uuids : List String
  recv_future : RunResult
  started_fires : Bool

/-- `prepare_put_handler` (src/s4/server.py:110-133).  The space, ownership
and underscore asserts sit before the `try`, so their failures escape the
handler; only an `AssertionError` out of the solo `prepare_put` call becomes
a 409.  The inner `try` deletes the reserved sidecar and re-raises on any
failure after the reservation; `await started` has no timeout in this code,
so when the gate never resolves the handler never returns. -/
def prepare_put_handler (env : PutEnv) (srv : Server) (key : String) :
    Server × HResult :=
  if strContains key ' ' then (srv, .err .assertionError)
  else if env.owned = false then (srv, .err .assertionError)
  else
    let path := stripScheme key
    if strStarts path "_" then (srv, .err .assertionError)
    else
      match prepare_put srv.fs path env.temp_path env.port with
      | (fs1, .error .assertionError) => ({ srv with fs := fs1 }, .resp ⟨409, none⟩)
      | (fs1, .error e) => ({ srv with fs := fs1 }, .err e)
      | (fs1, .ok (temp_path, port)) =>
        match new_uuid srv.io_jobs srv.now (env.uuids.take 10) with
        | .error e =>
          ({ srv with fs := s4_delete fs1 [checksum_path path] }, .err e)
        | .ok (uuid, jobs1) =>
          if fs1.isfile temp_path then
            ({ srv with fs := s4_delete fs1 [checksum_path path], io_jobs := jobs1 },
             .err .assertionError)
          else
            let jobs2 := setJob jobs1 uuid (Job.putJob srv.now env.recv_future temp_path path)
            if env.started_fires then
              ({ srv with fs := fs1, io_jobs := jobs2 },
               .resp ⟨200, some (jsonUuidPort uuid port)⟩)
            else
              ({ srv with fs := fs1, io_jobs := jobs2 }, .hang)

/-- `confirm_put` (solo pool, src/s4/server.py:135-143): write the checksum
into the sidecar, rename temp into place, set read-only bits; on any failure
delete blob, temp and sidecar and re-raise (`os.rename` of a missing temp
raises `FileNotFoundError`). -/
def confirm_put (fs : FS) (path temp_path server_checksum : String) :
    FS × Except PyErr Unit :=
  if strEnds path "/" then (fs, .error .assertionError)
  else
    let cp := checksum_path path
    let fs1 := fs.write cp server_checksum
    if fs1.isfile temp_path then
      ((((fs1.rename temp_path path).chmod_ro cp).chmod_ro path), .ok ())
    else
      (s4_delete fs1 [path, temp_path, cp], .error .osError)

/-- The `except` block of `confirm_put_handler`:
`s4.delete(job['path'], job['temp_path'], checksum_path(job['path']))` then
re-raise.  A job without those keys turns the cleanup itself into a
`KeyError`; a trailing-slash path re-raises `checksum_path`'s assert. -/
def confirm_put_cleanup (srv : Server) (job : Job) (e : PyErr) : Server × HResult :=
  match job.path?, job.temp_path? with
  | some p, some tp =>
    if strEnds p "/" then (srv, .err .assertionError)
    else ({ srv with fs := s4_delete srv.fs [p, tp, checksum_path p] }, .err e)
  | _, _ => (srv, .err .keyError)

/-- `confirm_put_handler` (src/s4/server.py:145-158).  `io_jobs.pop(uuid)` on
an unknown uuid raises `KeyError`, and the `except` block then reads the
never-bound local `job`, raising `UnboundLocalError` with no deletion done. -/
def confirm_put_handler (srv : Server) (uuid client_checksum : String) :
    Server × HResult :=
  match alookup srv.io_jobs uuid with
  | none => (srv, .err .unboundLocalError)
  | some job =>
    let srv1 : Server := { srv with io_jobs := aerase srv.io_jobs uuid }
    match job.future? with
    | none => confirm_put_cleanup srv1 job .keyError
    | some result =>
      if result.exitcode ≠ 0 then confirm_put_cleanup srv1 job .assertionError
      else if client_checksum ≠ result.stderr then confirm_put_cleanup srv1 job .assertionError
      else
        match job.path?, job.temp_path? with
        | some p, some tp =>
          match confirm_put srv1.fs p tp result.stderr with
          | (fs2, .ok _) => ({ srv1 with fs := fs2 }, .resp ⟨200, none⟩)
          | (fs2, .error e) =>
            if strEnds p "/" then ({ srv1 with fs := fs2 }, .err .assertionError)
            else ({ srv1 with fs := s4_delete fs2 [p, tp, checksum_path p] }, .err e)
        | _, _ => confirm_put_cleanup srv1 job .keyError

-- Get path (src/s4/server.py:172-197) -----------------------------------------

/-- Oracles of one `prepare_get` request: ownership verdict, candidate uuids,
the eventual result of the `< path xxh3 --stream | send remote port` copier,
and whether the `started` gate ever resolves. -/
structure GetEnv where
  owned : Bool
  uuids : List String
  send_future : RunResult
  started_fires : Bool

/-- `prepare_get_handler` (src/s4/server.py:172-187): assert ownership, 404
when the blob-plus-sidecar pair is missing, else register a get job whose
`disk_checksum` is the sidecar content read now (`checksum_read`), await the
`started` gate (again with no timeout) and answer 200 with the uuid. -/
def prepare_get_handler (env : GetEnv) (srv : Server) (key : String) (port : Nat)
    (remote : String) : Server × HResult :=
  if env.owned = false then (srv, .err .assertionError)
  else
    let path := stripScheme key
    match existsE srv.fs path with
    | .error e => (srv, .err e)
    | .ok false => (srv, .resp ⟨404, none⟩)
    | .ok true =>
      match new_uuid srv.io_jobs srv.now (env.uuids.take 10) with
      | .error e => (srv, .err e)
      | .ok (uuid, jobs1) =>
        match srv.fs.read (checksum_path path) with
        | none => ({ srv with io_jobs := jobs1 }, .err .osError)
        | some dc =>
          let jobs2 := setJob jobs1 uuid (Job.getJob srv.now env.send_future dc)
          if env.started_fires then
            ({ srv with io_jobs := jobs2 }, .resp ⟨200, some uuid⟩)
          else ({ srv with io_jobs := jobs2 }, .hang)

/-- `confirm_get_handler` (src/s4/server.py:189-197): pop the job, await the
send copier, and answer 200 exactly when it exited 0 and
`disk_checksum == client_checksum == server_checksum` (Python's chained
comparison); there is no `except` clause, so every failure escapes. -/
def confirm_get_handler (srv : Server) (uuid client_checksum : String) :
    Server × HResult :=
  match alookup srv.io_jobs uuid with
  | none => (srv, .err .keyError)
  | some job =>
    let srv1 : Server := { srv with io_jobs := aerase srv.io_jobs uuid }
    match job.future? with
    | none => (srv1, .err .keyError)
    | some result =>
      if result.exitcode ≠ 0 then (srv1, .err .assertionError)
      else
        match job.disk_checksum? with
        | none => (srv1, .err .keyError)
        | some dc =>
          if dc = client_checksum ∧ client_checksum = result.stderr
          then (srv1, .resp ⟨200, none⟩)
          else (srv1, .err .assertionError)

-- Eval (src/s4/server.py:160-170) ---------------------------------------------

/-- `eval_handler`: 404 when the key is missing; otherwise run
`< path cmd | head -n 1000` on the io pool (result supplied by the
`run_result` oracle) and `assert result['exitcode'] == 0` — a nonzero exit
raises instead of producing a 400 response. -/
def eval_handler (owned : Bool) (run_result : RunResult) (srv : Server)
    (key : String) : Server × HResult :=
  if owned = false then (srv, .err .assertionError)
  else
    let path := stripScheme key
    match existsE srv.fs path with
    | .error e => (srv, .err e)
    | .ok false => (srv, .resp ⟨404, none⟩)
    | .ok true =>
      if run_result.exitcode ≠ 0 then (srv, .err .assertionError)
      else (srv, .resp ⟨200, some run_result.stdout⟩)

-- Local put (src/s4/server.py:69-92) ------------------------------------------

/-- `local_put` (solo pool, src/s4/server.py:69-78): assert neither blob nor
sidecar exists, run `< temp_path xxh3 | tr -d "\n" > checksum_path(path)`
(the external hasher is the `hash` parameter; the shell redirect creates the
sidecar even when reading `temp_path` fails, in which case the nonzero exit
is raised as `Exception(result)`), then rename temp into place and set the
read-only bits on sidecar and blob. -/
def local_put (hash : String → String) (fs : FS) (temp_path path : String) :
    FS × Except PyErr Unit :=
  if fs.isfile path then (fs, .error .assertionError)
  else if strEnds path "/" then (fs, .error .assertionError)
  else if fs.isfile (checksum_path path) then (fs, .error .assertionError)
  else
    match fs.read temp_path with
    | some content =>
      let cp := checksum_path path
      let fs1 := fs.write cp (hash content)
      (((fs1.rename temp_path path).chmod_ro cp).chmod_ro path, .ok ())
    | none =>
      (fs.write (checksum_path path) "", .error .exception)

/-- `local_put_handler` (src/s4/server.py:80-92): the space, ownership and
underscore asserts are outside the `try`; only an `AssertionError` from the
solo `local_put` call becomes a 409, success is a bare 200. -/
def local_put_handler (hash : String → String) (owned : Bool) (srv : Server)
    (key temp_path : String) : Server × HResult :=
  if strContains key ' ' then (srv, .err .assertionError)
  else if owned = false then (srv, .err .assertionError)
  else
    let path := stripScheme key
    if strStarts path "_" then (srv, .err .assertionError)
    else
      match local_put hash srv.fs temp_path path with
      | (fs1, .error .assertionError) => ({ srv with fs := fs1 }, .resp ⟨409, none⟩)
      | (fs1, .error e) => ({ srv with fs := fs1 }, .err e)
      | (fs1, .ok _) => ({ srv with fs := fs1 }, .resp ⟨200, none⟩)

-- Delete (src/s4/server.py:237-247) -------------------------------------------

/-- `delete_handler`: recursive runs `rm -rf prefix+'*'`, non-recursive runs
`rm -f prefix checksum_path(prefix)`; `rm -f` always exits 0 so the handler
answers 200. -/
def delete_handler (srv : Server) (pre : String) (recursive : Bool) :
    Server × HResult :=
  if strStarts pre "s4://" = false then (srv, .err .assertionError)
  else
    let p := stripScheme pre
    if recursive then
      ({ srv with fs := srv.fs.removeGlob p }, .resp ⟨200, none⟩)
    else if strEnds p "/" then (srv, .err .assertionError)
    else ({ srv with fs := s4_delete srv.fs [p, checksum_path p] }, .resp ⟨200, none⟩)

-- GC (src/s4/server.py:333-354) -----------------------------------------------

/-- Modelled from the spec: `s4.max_timeout` is referenced by `server.py` and
`cli.py` but not defined under `src/`; the spec sets
"max_timeout = 2 × s4.timeout + 15 s". -/
def max_timeout (timeout : Nat) : Nat := 2 * timeout + 15

/-- One iteration of the expired-jobs loop of `gc_expired_data`
(src/s4/server.py:335-340): when the record is older than `mt`, evaluate
`s4.delete(checksum_path(job['path']), job['temp_path'])` under
`ignore(KeyError)` — a record without those keys skips the deletion — and
pop the record.  `checksum_path`'s AssertionError is not a `KeyError`, so it
escapes and (via `exceptions_kill_pid`) kills the process. -/
def gc_job_step (mt now : Nat) (st : FS × List (String × Job)) (e : String × Job) :
    Except PyErr (FS × List (String × Job)) :=
  if now - e.2.start > mt then
    match e.2.path? with
    | none => .ok (st.1, aerase st.2 e.1)
    | some p =>
      if strEnds p "/" then .error .assertionError
      else
        match e.2.temp_path? with
        | none => .ok (st.1, aerase st.2 e.1)
        | some tp => .ok (s4_delete st.1 [checksum_path p, tp], aerase st.2 e.1)
  else .ok st

/-- The loop of the sweep: fold `gc_job_step` over the snapshot, an uncaught
exception aborting the loop (and the process). -/
def gc_fold (mt now : Nat) (st : FS × List (String × Job)) :
    List (String × Job) → Except PyErr (FS × List (String × Job))
  | [] => .ok st
  | e :: rest =>
    match gc_job_step mt now st e with
    | .error err => .error err
    | .ok st1 => gc_fold mt now st1 rest

/-- The `io_jobs` sweep of `gc_expired_data` (src/s4/server.py:334-340),
iterating over a snapshot `list(io_jobs.items())` while mutating the table.
The find-based sweeps of `_tempfiles/` and `_tempdirs/` (lines 341-352) age
files out by mtime, which this filesystem model does not track. -/
def gc_expired_jobs (mt : Nat) (srv : Server) : Except PyErr Server :=
  (gc_fold mt srv.now (srv.fs, srv.io_jobs) srv.io_jobs).map
    (fun st => { srv with fs := st.1, io_jobs := st.2 })

-- HTTP route table (src/s4/server.py:375-387) ---------------------------------

def routes : List (String × String) :=
  [("/local_put", "post"), ("/prepare_put", "post"), ("/confirm_put", "post"),
   ("/prepare_get", "post"), ("/confirm_get", "post"), ("/delete", "post"),
   ("/map", "post"), ("/map_to_n", "post"), ("/map_from_n", "post"),
   ("/eval", "post"), ("/list", "get"), ("/list_buckets", "get"),
   ("/health", "get")]

-- Further filesystem and association-list lemmas ------------------------------

theorem alookup_mem {β : Type} {l : List (String × β)} {p : String} {v : β}
    (h : alookup l p = some v) : (p, v) ∈ l := by
  induction l with
  | nil => simp [alookup] at h
  | cons hd tl ih =>
    by_cases h1 : hd.1 = p
    · simp [alookup, h1] at h
      have he : hd = (p, v) := Prod.ext h1 h
      rw [he]
      exact List.mem_cons_self _ _
    · simp [alookup, h1] at h
      exact List.mem_cons_of_mem hd (ih h)

theorem mem_alookup_isSome {β : Type} {l : List (String × β)} {p : String} {v : β}
    (h : (p, v) ∈ l) : (alookup l p).isSome = true := by
  induction l with
  | nil => simp at h
  | cons hd tl ih =>
    rcases List.mem_cons.mp h with h1 | h1
    · simp [alookup, ← h1]
    · by_cases h2 : hd.1 = p
      · simp [alookup, h2]
      · simp [alookup, h2]
        exact ih h1

theorem alookup_aerase_none {β : Type} (l : List (String × β)) (p q : String)
    (h : alookup l q = none) : alookup (aerase l p) q = none := by
  rw [alookup_aerase]
  split <;> simp [h]

theorem FS.lookup_write (fs : FS) (p q c) :
    (fs.write p c).lookup q = if q = p then some ⟨c, false⟩ else fs.lookup q := by
  simp [FS.write, FS.lookup_set]

theorem FS.read_write (fs : FS) (p q c) :
    (fs.write p c).read q = if q = p then some c else fs.read q := by
  simp only [FS.read, FS.lookup_write]
  split <;> rfl

theorem FS.lookup_chmod_ro (fs : FS) (p q : String) :
    (fs.chmod_ro p).lookup q =
      if q = p then (fs.lookup p).map (fun d => ⟨d.content, true⟩)
      else fs.lookup q := by
  unfold FS.chmod_ro
  cases h : fs.lookup p with
  | none =>
    by_cases hq : q = p
    · simp [hq, h]
    · simp [hq]
  | some d =>
    rw [FS.lookup_set]
    by_cases hq : q = p <;> simp [hq, h]

theorem FS.lookup_rename (fs : FS) (src dst q : String) (d : FileData)
    (h : fs.lookup src = some d) :
    (fs.rename src dst).lookup q =
      if q = dst then some d else if q = src then none else fs.lookup q := by
  unfold FS.rename
  rw [h, FS.lookup_set, FS.lookup_erase]

theorem FS.lookup_s4_delete (fs : FS) (paths : List String) (q : String) :
    (s4_delete fs paths).lookup q = if q ∈ paths then none else fs.lookup q := by
  induction paths generalizing fs with
  | nil => simp [s4_delete]
  | cons hd tl ih =>
    by_cases h1 : q = hd
    · subst h1
      simp only [s4_delete, List.foldl] at *
      rw [ih]
      simp [FS.lookup_erase]
    · simp only [s4_delete, List.foldl] at *
      rw [ih]
      by_cases h2 : q ∈ tl <;> simp [h1, h2, FS.lookup_erase]

-- String facts ----------------------------------------------------------------

theorem beginsWith_append_self (xs ys : List Char) :
    beginsWith xs (xs ++ ys) = true := by
  induction xs with
  | nil => rfl
  | cons c cs ih => simp [beginsWith, ih]

theorem strEnds_append_suffix (s t : String) : strEnds (s ++ t) t = true := by
  have hdata : (s ++ t).data = s.data ++ t.data := String.data_append s t
  simp [strEnds, hdata, List.reverse_append, beginsWith_append_self]

theorem strEnds_checksum_path (p : String) :
    strEnds (checksum_path p) ".xxh3" = true :=
  strEnds_append_suffix p ".xxh3"

theorem checksum_path_ne_self (p : String) : checksum_path p ≠ p := by
  intro h
  have hdata : (p ++ ".xxh3").data = p.data ++ ".xxh3".data := String.data_append p _
  have hlen := congrArg (fun s => s.data.length) h
  simp only [checksum_path] at hlen
  rw [hdata] at hlen
  simp at hlen

theorem strStarts_checksum_path (p : String) (h : strStarts p "_" = false) :
    strStarts (checksum_path p) "_" = false := by
  have hdata : (p ++ ".xxh3").data = p.data ++ ".xxh3".data := String.data_append p _
  simp only [checksum_path, strStarts, hdata]
  cases hp : p.data with
  | nil => decide
  | cons c cs =>
    simp only [strStarts, hp] at h
    simp only [List.cons_append]
    simp only [beginsWith] at h ⊢
    simpa using h

-- 4.E/4.G Claim C9 ------------------------------------------------------------

/-- Claim C9: a confirm_put whose uuid is not in the job table is not turned
into a controlled error response: `io_jobs.pop(uuid)` raises `KeyError`, the
`except` block reads the never-bound local `job` and itself fails
(`UnboundLocalError`), and neither the filesystem nor the job table is
touched. -/
theorem C9_confirm_put_unknown_uuid (srv : Server) (uuid client_checksum : String)
    (h : alookup srv.io_jobs uuid = none) :
    confirm_put_handler srv uuid client_checksum = (srv, .err .unboundLocalError) := by
  simp [confirm_put_handler, h]

/-- Witness for C9 on an empty job table. -/
theorem C9_witness :
    confirm_put_handler ⟨⟨[]⟩, [], 0⟩ "u" "abc" = (⟨⟨[]⟩, [], 0⟩, .err .unboundLocalError) :=
  C9_confirm_put_unknown_uuid ⟨⟨[]⟩, [], 0⟩ "u" "abc" (by decide)

-- Claim C6 --------------------------------------------------------------------

/-- Claim C6: for a confirm_get whose uuid names an in-flight get job, the
response is 200 exactly when the sender copier exited 0 and the three digests
(disk checksum captured at prepare_get time, sender-stream digest on the
copier's stderr, client checksum) agree; any other case raises the assertion
(surfaced as a non-200 by the web layer).  Additionally, a successful
prepare_get records as `disk_checksum` exactly the sidecar content at
prepare time. -/
theorem C6_confirm_get_digest_agreement :
    (∀ (srv : Server) (uuid cc : String) (st : Nat) (fut : RunResult) (dc : String),
      alookup srv.io_jobs uuid = some (Job.getJob st fut dc) →
      (((confirm_get_handler srv uuid cc).2 = .resp ⟨200, none⟩
          ↔ (fut.exitcode = 0 ∧ dc = cc ∧ cc = fut.stderr))
        ∧ ((confirm_get_handler srv uuid cc).2 = .resp ⟨200, none⟩
            ∨ (confirm_get_handler srv uuid cc).2 = .err .assertionError)))
    ∧ (∀ (env : GetEnv) (srv : Server) (key : String) (port : Nat) (remote u dc : String),
      env.owned = true →
      existsE srv.fs (stripScheme key) = .ok true →
      env.uuids = [u] →
      alookup srv.io_jobs u = none →
      srv.fs.read (checksum_path (stripScheme key)) = some dc →
      env.started_fires = true →
      (prepare_get_handler env srv key port remote).2 = .resp ⟨200, some u⟩
        ∧ alookup (prepare_get_handler env srv key port remote).1.io_jobs u
            = some (Job.getJob srv.now env.send_future dc)) := by
  constructor
  · intro srv uuid cc st fut dc h
    simp only [confirm_get_handler, h, Job.future?, Job.disk_checksum?]
    by_cases h0 : fut.exitcode = 0
    · by_cases h1 : dc = cc
      · by_cases h2 : cc = fut.stderr
        · simp [h0, h1, h2]
        · simp [h0, h1, h2]
      · simp [h0, h1]
    · simp [h0]
  · intro env srv key port remote u dc hown hex hu hfresh hread hstart
    simp only [prepare_get_handler, hown, hex, hu, hread, hstart, List.take,
      new_uuid, hfresh, Bool.true_eq_false, if_false]
    constructor
    · rfl
    · simp [setJob, alookup]

/-- Witness for C6 at a one-entry job table with all three digests `"abc"`. -/
theorem C6_witness :
    (((confirm_get_handler ⟨⟨[]⟩, [("u", Job.getJob 0 ⟨0, "", "abc"⟩ "abc")], 5⟩ "u" "abc").2
        = HResult.resp ⟨200, none⟩
      ↔ ((RunResult.mk 0 "" "abc").exitcode = 0 ∧ "abc" = "abc"
          ∧ "abc" = (RunResult.mk 0 "" "abc").stderr))
    ∧ ((confirm_get_handler ⟨⟨[]⟩, [("u", Job.getJob 0 ⟨0, "", "abc"⟩ "abc")], 5⟩ "u" "abc").2
        = HResult.resp ⟨200, none⟩
      ∨ (confirm_get_handler ⟨⟨[]⟩, [("u", Job.getJob 0 ⟨0, "", "abc"⟩ "abc")], 5⟩ "u" "abc").2
        = HResult.err .assertionError)) :=
  C6_confirm_get_digest_agreement.1 ⟨⟨[]⟩, [("u", Job.getJob 0 ⟨0, "", "abc"⟩ "abc")], 5⟩
    "u" "abc" 0 ⟨0, "", "abc"⟩ "abc" (by decide)

-- Claim C7 --------------------------------------------------------------------

/-- Claim C7, evaluated on the code: a missing key gives 404, but when the
key is present and the user command exits nonzero, `eval_handler` runs
`assert result['exitcode'] == 0` and the AssertionError escapes — the
handler produces no 400 response carrying `{stdout, stderr, exitcode}`
(which `cli.py eval` expects to parse). -/
theorem C7_eval_handler_on_failure :
    (∀ (srv : Server) (key : String) (rr : RunResult),
        existsE srv.fs (stripScheme key) = .ok false →
        eval_handler true rr srv key = (srv, .resp ⟨404, none⟩))
    ∧ (∀ (srv : Server) (key : String) (rr : RunResult),
        existsE srv.fs (stripScheme key) = .ok true →
        rr.exitcode ≠ 0 →
        eval_handler true rr srv key = (srv, .err .assertionError)) := by
  constructor
  · intro srv key rr h
    simp [eval_handler, h]
  · intro srv key rr h h0
    simp [eval_handler, h, h0]

/-- Witness for C7: key `s4://b/k` present with sidecar, user command exits 1:
the handler raises instead of answering 400. -/
theorem C7_witness :
    eval_handler true ⟨1, "out", "boom"⟩
        ⟨⟨[("b/k", ⟨"v", true⟩), ("b/k.xxh3", ⟨"d", true⟩)]⟩, [], 0⟩ "s4://b/k"
      = (⟨⟨[("b/k", ⟨"v", true⟩), ("b/k.xxh3", ⟨"d", true⟩)]⟩, [], 0⟩,
         .err .assertionError) :=
  C7_eval_handler_on_failure.2 ⟨⟨[("b/k", ⟨"v", true⟩), ("b/k.xxh3", ⟨"d", true⟩)]⟩, [], 0⟩
    "s4://b/k" ⟨1, "out", "boom"⟩ (by rfl) (by decide)

-- Helper lemmas about the put path --------------------------------------------

/-- When the pre-`try` asserts pass and either the blob or its sidecar already
exists, the solo `prepare_put` raises and the handler answers 409 with the
state untouched. -/
theorem prepare_put_handler_conflict (env : PutEnv) (srv : Server) (key : String)
    (h1 : strContains key ' ' = false) (h2 : env.owned = true)
    (h3 : strStarts (stripScheme key) "_" = false)
    (h4 : srv.fs.isfile (stripScheme key) = true
          ∨ srv.fs.isfile (checksum_path (stripScheme key)) = true) :
    prepare_put_handler env srv key = (srv, .resp ⟨409, none⟩) := by
  rcases h4 with h4 | h4
  · simp [prepare_put_handler, prepare_put, h1, h2, h3, h4]
  · by_cases h5 : srv.fs.isfile (stripScheme key) = true
    · simp [prepare_put_handler, prepare_put, h1, h2, h3, h5]
    · have h5b : srv.fs.isfile (stripScheme key) = false := by
        simpa using h5
      by_cases h6 : strEnds (stripScheme key) "/" = true
      · simp [prepare_put_handler, prepare_put, h1, h2, h3, h5b, h6]
      · have h6b : strEnds (stripScheme key) "/" = false := by
          simpa using h6
        simp [prepare_put_handler, prepare_put, h1, h2, h3, h5b, h6b, h4]

/-- The normal run of `prepare_put_handler`: slot free, one fresh uuid, temp
path fresh.  The sidecar is reserved and the put job registered; the outcome
is 200 when the `started` gate resolves and a hang (never a 429) when it
does not. -/
theorem prepare_put_handler_normal (env : PutEnv) (srv : Server) (key u : String)
    (h1 : strContains key ' ' = false) (h2 : env.owned = true)
    (h3 : strStarts (stripScheme key) "_" = false)
    (h4 : srv.fs.isfile (stripScheme key) = false)
    (h5 : strEnds (stripScheme key) "/" = false)
    (h6 : srv.fs.isfile (checksum_path (stripScheme key)) = false)
    (h7 : env.uuids = [u])
    (h8 : alookup srv.io_jobs u = none)
    (h9 : env.temp_path ≠ checksum_path (stripScheme key))
    (h10 : srv.fs.isfile env.temp_path = false) :
    prepare_put_handler env srv key
      = ({ srv with
            fs := srv.fs.write (checksum_path (stripScheme key)) "",
            io_jobs := setJob ((u, Job.pending srv.now) :: srv.io_jobs) u
              (Job.putJob srv.now env.recv_future env.temp_path (stripScheme key)) },
         if env.started_fires then
           HResult.resp ⟨200, some (jsonUuidPort u env.port)⟩
         else HResult.hang) := by
  have htmp : (srv.fs.write (checksum_path (stripScheme key)) "").isfile env.temp_path
      = false := by
    rw [FS.isfile_write]
    simp [h9, h10]
  simp only [prepare_put_handler, prepare_put, h1, h2, h3, h4, h5, h6, h7, h8,
    htmp, List.take, new_uuid, Bool.false_eq_true, if_false]
  by_cases hs : env.started_fires <;> simp [hs]

/-- A failed confirm (nonzero copier exit or checksum mismatch) pops the job,
deletes blob, temp and sidecar, and re-raises the assertion. -/
theorem confirm_put_handler_failure (srv : Server) (uuid cc : String)
    (st : Nat) (fut : RunResult) (tp p : String)
    (hj : alookup srv.io_jobs uuid = some (Job.putJob st fut tp p))
    (hp : strEnds p "/" = false)
    (hfail : fut.exitcode ≠ 0 ∨ cc ≠ fut.stderr) :
    confirm_put_handler srv uuid cc
      = ({ srv with
            io_jobs := aerase srv.io_jobs uuid,
            fs := s4_delete srv.fs [p, tp, checksum_path p] },
         .err .assertionError) := by
  rcases hfail with hf | hf
  · simp [confirm_put_handler, hj, Job.future?, hf, confirm_put_cleanup,
      Job.path?, Job.temp_path?, hp]
  · by_cases h0 : fut.exitcode = 0
    · simp [confirm_put_handler, hj, Job.future?, h0, hf, confirm_put_cleanup,
        Job.path?, Job.temp_path?, hp]
    · simp [confirm_put_handler, hj, Job.future?, h0, confirm_put_cleanup,
        Job.path?, Job.temp_path?, hp]

/-- A successful confirm pops the job, writes the server digest into the
sidecar, renames temp into the blob path and sets the read-only bits. -/
theorem confirm_put_handler_success (srv : Server) (uuid cc : String)
    (st : Nat) (fut : RunResult) (tp p : String)
    (hj : alookup srv.io_jobs uuid = some (Job.putJob st fut tp p))
    (h0 : fut.exitcode = 0) (hcc : cc = fut.stderr)
    (hp : strEnds p "/" = false)
    (htp : tp ≠ checksum_path p)
    (hex : srv.fs.isfile tp = true) :
    confirm_put_handler srv uuid cc
      = ({ srv with
            io_jobs := aerase srv.io_jobs uuid,
            fs := ((((srv.fs.write (checksum_path p) fut.stderr).rename tp p).chmod_ro
                     (checksum_path p)).chmod_ro p) },
         .resp ⟨200, none⟩) := by
  have hex1 : (srv.fs.write (checksum_path p) fut.stderr).isfile tp = true := by
    rw [FS.isfile_write]
    simp [htp, hex]
  simp [confirm_put_handler, hj, Job.future?, h0, hcc, Job.path?, Job.temp_path?,
    confirm_put, hp, hex1]

-- Claim C2 --------------------------------------------------------------------

/-- Claim C2 fails as stated: a prepare_put for a key this server does not
own raises an uncaught AssertionError (the `assert s4.on_this_server(key)`
sits before the `try`), it does not return 409 Conflict. -/
theorem C2_counterexample :
    prepare_put_handler ⟨false, "_tempfiles/t1", 20000, ["u1"], ⟨0, "", "d"⟩, true⟩
        ⟨⟨[]⟩, [], 0⟩ "s4://b/k"
      = (⟨⟨[]⟩, [], 0⟩, .err .assertionError) := by decide

/-- Claim C2, amended: the handler returns 409 exactly for the slot
assertions raised inside the solo `prepare_put` call — in particular whenever
the blob or its sidecar already exists — while an owner mismatch, a space in
the key, or a leading-underscore first path component make the handler raise
an uncaught AssertionError instead of replying 409; and after one successful
put of a key, a further prepare_put of that key returns 409. -/
theorem C2_prepare_put_conflict_amended :
    (∀ (env : PutEnv) (srv : Server) (key : String),
        strContains key ' ' = false → env.owned = true →
        strStarts (stripScheme key) "_" = false →
        (srv.fs.isfile (stripScheme key) = true
          ∨ srv.fs.isfile (checksum_path (stripScheme key)) = true) →
        (prepare_put_handler env srv key).2 = .resp ⟨409, none⟩)
    ∧ (∀ (env : PutEnv) (srv : Server) (key : String),
        (strContains key ' ' = true ∨ env.owned = false
          ∨ strStarts (stripScheme key) "_" = true) →
        (prepare_put_handler env srv key).2 = .err .assertionError)
    ∧ (∀ (srv : Server) (uuid cc : String) (st : Nat) (fut : RunResult) (tp p : String)
        (env : PutEnv) (key : String),
        alookup srv.io_jobs uuid = some (Job.putJob st fut tp p) →
        fut.exitcode = 0 → cc = fut.stderr →
        strEnds p "/" = false → tp ≠ checksum_path p →
        srv.fs.isfile tp = true →
        stripScheme key = p →
        strContains key ' ' = false → env.owned = true →
        strStarts p "_" = false →
        (prepare_put_handler env (confirm_put_handler srv uuid cc).1 key).2
          = .resp ⟨409, none⟩) := by
  refine ⟨?_, ?_, ?_⟩
  · intro env srv key h1 h2 h3 h4
    rw [prepare_put_handler_conflict env srv key h1 h2 h3 h4]
  · intro env srv key h
    rcases h with h | h | h
    · simp [prepare_put_handler, h]
    · by_cases hs : strContains key ' ' = true
      · simp [prepare_put_handler, hs]
      · have hsb : strContains key ' ' = false := by simpa using hs
        simp [prepare_put_handler, hsb, h]
    · by_cases hs : strContains key ' ' = true
      · simp [prepare_put_handler, hs]
      · have hsb : strContains key ' ' = false := by simpa using hs
        by_cases ho : env.owned = true
        · simp [prepare_put_handler, hsb, ho, h]
        · have hob : env.owned = false := by simpa using ho
          simp [prepare_put_handler, hsb, hob]
  · intro srv uuid cc st fut tp p env key hj h0 hcc hp htp hex hkey hsp hown hund
    rw [confirm_put_handler_success srv uuid cc st fut tp p hj h0 hcc hp htp hex]
    have hblob : ((((srv.fs.write (checksum_path p) fut.stderr).rename tp p).chmod_ro
        (checksum_path p)).chmod_ro p).isfile p = true := by
      rw [FS.isfile_chmod_ro, FS.isfile_chmod_ro, FS.isfile_rename]
      · simp
      · rw [FS.isfile_write]
        simp [htp, hex]
    rw [prepare_put_handler_conflict env _ key hsp hown (by rw [hkey]; exact hund)
      (Or.inl (by rw [hkey]; exact hblob))]

/-- Witness for the amended C2: with blob `b/k` and its sidecar on disk, a
fresh prepare_put of `s4://b/k` answers 409. -/
theorem C2_witness :
    (prepare_put_handler ⟨true, "_tempfiles/t1", 20000, ["u1"], ⟨0, "", "d"⟩, true⟩
        ⟨⟨[("b/k", ⟨"v", true⟩), ("b/k.xxh3", ⟨"d", true⟩)]⟩, [], 0⟩ "s4://b/k").2
      = .resp ⟨409, none⟩ :=
  C2_prepare_put_conflict_amended.1 ⟨true, "_tempfiles/t1", 20000, ["u1"], ⟨0, "", "d"⟩, true⟩
    ⟨⟨[("b/k", ⟨"v", true⟩), ("b/k.xxh3", ⟨"d", true⟩)]⟩, [], 0⟩ "s4://b/k"
    (by decide) (by decide) (by decide) (Or.inl (by decide))

-- Claim C3 --------------------------------------------------------------------

/-- Claim C3: when the receive copier exits nonzero or the client checksum
differs from the server digest on its stderr, confirm_put raises (non-200),
the blob path, temp file and sidecar are all deleted, and a subsequent
prepare_put of the same key succeeds — the slot is released. -/
theorem C3_confirm_put_failure_releases_slot
    (srv : Server) (uuid cc : String) (st : Nat) (fut : RunResult) (tp p : String)
    (hj : alookup srv.io_jobs uuid = some (Job.putJob st fut tp p))
    (hp : strEnds p "/" = false)
    (hfail : fut.exitcode ≠ 0 ∨ cc ≠ fut.stderr) :
    (confirm_put_handler srv uuid cc).2 = .err .assertionError
    ∧ (confirm_put_handler srv uuid cc).1.fs.isfile p = false
    ∧ (confirm_put_handler srv uuid cc).1.fs.isfile tp = false
    ∧ (confirm_put_handler srv uuid cc).1.fs.isfile (checksum_path p) = false
    ∧ (∀ (env : PutEnv) (key u : String),
        stripScheme key = p →
        strContains key ' ' = false → env.owned = true →
        strStarts p "_" = false →
        env.uuids = [u] →
        alookup (confirm_put_handler srv uuid cc).1.io_jobs u = none →
        env.temp_path ≠ checksum_path p →
        (confirm_put_handler srv uuid cc).1.fs.isfile env.temp_path = false →
        env.started_fires = true →
        (prepare_put_handler env (confirm_put_handler srv uuid cc).1 key).2
          = .resp ⟨200, some (jsonUuidPort u env.port)⟩) := by
  have hc := confirm_put_handler_failure srv uuid cc st fut tp p hj hp hfail
  rw [hc]
  refine ⟨rfl, ?_, ?_, ?_, ?_⟩
  · rw [FS.isfile_s4_delete]
    simp
  · rw [FS.isfile_s4_delete]
    simp
  · rw [FS.isfile_s4_delete]
    simp
  · intro env key u hkey hsp hown hund hu hfresh htp hfile hs
    rw [prepare_put_handler_normal env _ key u hsp hown (by rw [hkey]; exact hund)
      (by rw [hkey, FS.isfile_s4_delete]; simp) (by rw [hkey]; exact hp)
      (by rw [hkey, FS.isfile_s4_delete]; simp) hu hfresh (by rw [hkey]; exact htp)
      hfile]
    simp [hs]

/-- Witness for C3: a put job whose copier exited 1; the confirm raises and
afterwards a prepare_put of the same key gives 200. -/
theorem C3_witness :
    ((confirm_put_handler
        ⟨⟨[("b/k.xxh3", ⟨"", false⟩), ("_tempfiles/t0", ⟨"v", false⟩)]⟩,
          [("u0", Job.putJob 0 ⟨1, "", "d"⟩ "_tempfiles/t0" "b/k")], 7⟩
        "u0" "d").2 = .err .assertionError)
    ∧ ((prepare_put_handler ⟨true, "_tempfiles/t1", 20001, ["u1"], ⟨0, "", "e"⟩, true⟩
        (confirm_put_handler
          ⟨⟨[("b/k.xxh3", ⟨"", false⟩), ("_tempfiles/t0", ⟨"v", false⟩)]⟩,
            [("u0", Job.putJob 0 ⟨1, "", "d"⟩ "_tempfiles/t0" "b/k")], 7⟩
          "u0" "d").1 "s4://b/k").2 = .resp ⟨200, some (jsonUuidPort "u1" 20001)⟩) := by
  have h := C3_confirm_put_failure_releases_slot
    ⟨⟨[("b/k.xxh3", ⟨"", false⟩), ("_tempfiles/t0", ⟨"v", false⟩)]⟩,
      [("u0", Job.putJob 0 ⟨1, "", "d"⟩ "_tempfiles/t0" "b/k")], 7⟩
    "u0" "d" 0 ⟨1, "", "d"⟩ "_tempfiles/t0" "b/k" (by decide) (by decide)
    (Or.inl (by decide))
  exact ⟨h.1, h.2.2.2.2 ⟨true, "_tempfiles/t1", 20001, ["u1"], ⟨0, "", "e"⟩, true⟩
    "s4://b/k" "u1" (by decide) (by decide) (by decide) (by decide) (by decide)
    (by decide) (by decide) (by decide) (by decide)⟩

-- Claim C4 --------------------------------------------------------------------

/-- Claim C4, evaluated on the code: `prepare_put_handler` contains no 429
path at all — no response it can return has code 429 — and when the `started`
gate does not resolve the handler hangs on `await started` (there is no
queue-wait timeout in this code), leaving the reserved sidecar in place
rather than cancelling and cleaning up. -/
theorem C4_prepare_put_no_429 :
    (∀ (env : PutEnv) (srv : Server) (key : String) (r : Response),
        (prepare_put_handler env srv key).2 = .resp r → r.code ≠ 429)
    ∧ (∀ (env : PutEnv) (srv : Server) (key u : String),
        env.started_fires = false →
        strContains key ' ' = false → env.owned = true →
        strStarts (stripScheme key) "_" = false →
        srv.fs.isfile (stripScheme key) = false →
        strEnds (stripScheme key) "/" = false →
        srv.fs.isfile (checksum_path (stripScheme key)) = false →
        env.uuids = [u] →
        alookup srv.io_jobs u = none →
        env.temp_path ≠ checksum_path (stripScheme key) →
        srv.fs.isfile env.temp_path = false →
        (prepare_put_handler env srv key).2 = .hang
        ∧ (prepare_put_handler env srv key).1.fs.isfile
            (checksum_path (stripScheme key)) = true) := by
  constructor
  · intro env srv key r h
    simp only [prepare_put_handler] at h
    repeat' split at h
    all_goals cases h
    all_goals intro hcontra
    all_goals simp at hcontra
  · intro env srv key u hns h1 h2 h3 h4 h5 h6 h7 h8 h9 h10
    rw [prepare_put_handler_normal env srv key u h1 h2 h3 h4 h5 h6 h7 h8 h9 h10]
    constructor
    · simp [hns]
    · rw [FS.isfile_write]
      simp

/-- Witness for C4: a successful prepare returns 200 (hence not 429), and the
same request with a never-resolving `started` gate hangs with the sidecar
still reserved. -/
theorem C4_witness :
    ((Response.mk 200 (some (jsonUuidPort "u1" 20000))).code ≠ 429)
    ∧ ((prepare_put_handler ⟨true, "_tempfiles/t1", 20000, ["u1"], ⟨0, "", "d"⟩, false⟩
          ⟨⟨[]⟩, [], 0⟩ "s4://b/k").2 = .hang
        ∧ (prepare_put_handler ⟨true, "_tempfiles/t1", 20000, ["u1"], ⟨0, "", "d"⟩, false⟩
            ⟨⟨[]⟩, [], 0⟩ "s4://b/k").1.fs.isfile
              (checksum_path (stripScheme "s4://b/k")) = true) :=
  ⟨C4_prepare_put_no_429.1 ⟨true, "_tempfiles/t1", 20000, ["u1"], ⟨0, "", "d"⟩, true⟩
      ⟨⟨[]⟩, [], 0⟩ "s4://b/k" ⟨200, some (jsonUuidPort "u1" 20000)⟩ (by decide),
   C4_prepare_put_no_429.2 ⟨true, "_tempfiles/t1", 20000, ["u1"], ⟨0, "", "d"⟩, false⟩
      ⟨⟨[]⟩, [], 0⟩ "s4://b/k" "u1" (by decide) (by decide) (by decide) (by decide)
      (by decide) (by decide) (by decide) (by decide) (by decide) (by decide) (by decide)⟩

-- Claim C10 -------------------------------------------------------------------

/-- After writing the sidecar, renaming temp into place and the two chmods,
the blob holds the temp content, the sidecar holds the digest, both are
read-only, and the temp path is gone. -/
theorem commit_state_lookups (fs : FS) (temp path cs : String) (d : FileData)
    (hl : fs.lookup temp = some d)
    (h8 : temp ≠ checksum_path path) (h9 : temp ≠ path) :
    ((((fs.write (checksum_path path) cs).rename temp path).chmod_ro
        (checksum_path path)).chmod_ro path).lookup path = some ⟨d.content, true⟩
    ∧ ((((fs.write (checksum_path path) cs).rename temp path).chmod_ro
        (checksum_path path)).chmod_ro path).lookup (checksum_path path) = some ⟨cs, true⟩
    ∧ ((((fs.write (checksum_path path) cs).rename temp path).chmod_ro
        (checksum_path path)).chmod_ro path).lookup temp = none := by
  have hpc : path ≠ checksum_path path := fun h => (checksum_path_ne_self path) h.symm
  have hl1 : (fs.write (checksum_path path) cs).lookup temp = some d := by
    rw [FS.lookup_write]
    simp [h8, hl]
  have hren := fun q => FS.lookup_rename (fs.write (checksum_path path) cs) temp path q d hl1
  refine ⟨?_, ?_, ?_⟩
  · rw [FS.lookup_chmod_ro]
    simp only [if_pos rfl]
    rw [FS.lookup_chmod_ro]
    simp only [if_neg hpc]
    rw [hren path]
    simp
  · rw [FS.lookup_chmod_ro]
    simp only [if_neg (fun h : checksum_path path = path => hpc h.symm)]
    rw [FS.lookup_chmod_ro]
    simp only [if_pos rfl]
    rw [hren (checksum_path path)]
    simp only [if_neg (fun h : checksum_path path = path => hpc h.symm),
      if_neg (fun h : checksum_path path = temp => h8 h.symm)]
    rw [FS.lookup_write]
    simp
  · rw [FS.lookup_chmod_ro]
    simp only [if_neg h9]
    rw [FS.lookup_chmod_ro]
    simp only [if_neg h8]
    rw [hren temp]
    simp [h9]

/-- The success run of the solo `local_put`. -/
theorem local_put_success (hash : String → String) (fs : FS) (temp path content : String)
    (h4 : fs.isfile path = false) (h5 : strEnds path "/" = false)
    (h6 : fs.isfile (checksum_path path) = false)
    (h7 : fs.read temp = some content) :
    local_put hash fs temp path
      = ((((fs.write (checksum_path path) (hash content)).rename temp path).chmod_ro
           (checksum_path path)).chmod_ro path, .ok ()) := by
  simp [local_put, h4, h5, h6, h7]

/-- Claim C10: the server routes POST /local_put; for an owned key the
handler returns 409 when the blob or its sidecar already exists, and
otherwise (with an existing local temp file) commits: it writes the computed
digest into the sidecar, renames the temp file to the blob path, sets the
read-only bits on both files, removes the temp path, and returns 200. -/
theorem C10_local_put_endpoint :
    ("/local_put", "post") ∈ routes
    ∧ (∀ (hash : String → String) (srv : Server) (key temp : String),
        strContains key ' ' = false →
        strStarts (stripScheme key) "_" = false →
        (srv.fs.isfile (stripScheme key) = true
          ∨ srv.fs.isfile (checksum_path (stripScheme key)) = true) →
        local_put_handler hash true srv key temp = (srv, .resp ⟨409, none⟩))
    ∧ (∀ (hash : String → String) (srv : Server) (key temp content : String),
        strContains key ' ' = false →
        strStarts (stripScheme key) "_" = false →
        srv.fs.isfile (stripScheme key) = false →
        strEnds (stripScheme key) "/" = false →
        srv.fs.isfile (checksum_path (stripScheme key)) = false →
        srv.fs.read temp = some content →
        temp ≠ checksum_path (stripScheme key) →
        temp ≠ stripScheme key →
        ((local_put_handler hash true srv key temp).2 = .resp ⟨200, none⟩
        ∧ (local_put_handler hash true srv key temp).1.fs.read (stripScheme key)
            = some content
        ∧ (local_put_handler hash true srv key temp).1.fs.read
            (checksum_path (stripScheme key)) = some (hash content)
        ∧ (local_put_handler hash true srv key temp).1.fs.readonly (stripScheme key)
            = true
        ∧ (local_put_handler hash true srv key temp).1.fs.readonly
            (checksum_path (stripScheme key)) = true
        ∧ (local_put_handler hash true srv key temp).1.fs.isfile temp = false)) := by
  refine ⟨by decide, ?_, ?_⟩
  · intro hash srv key temp h1 h3 h4
    rcases h4 with h4 | h4
    · simp [local_put_handler, local_put, h1, h3, h4]
    · by_cases h5 : srv.fs.isfile (stripScheme key) = true
      · simp [local_put_handler, local_put, h1, h3, h5]
      · have h5b : srv.fs.isfile (stripScheme key) = false := by simpa using h5
        by_cases h6 : strEnds (stripScheme key) "/" = true
        · simp [local_put_handler, local_put, h1, h3, h5b, h6]
        · have h6b : strEnds (stripScheme key) "/" = false := by simpa using h6
          simp [local_put_handler, local_put, h1, h3, h5b, h6b, h4]
  · intro hash srv key temp content h1 h3 h4 h5 h6 h7 h8 h9
    obtain ⟨d, hld, hdc⟩ : ∃ d, srv.fs.lookup temp = some d ∧ d.content = content := by
      cases hl : srv.fs.lookup temp with
      | none => simp [FS.read, hl] at h7
      | some d =>
        refine ⟨d, rfl, ?_⟩
        simp [FS.read, hl] at h7
        exact h7
    have hrun := local_put_success hash srv.fs temp (stripScheme key) content h4 h5 h6 h7
    have hfacts := commit_state_lookups srv.fs temp (stripScheme key) (hash content) d hld h8 h9
    simp only [local_put_handler, h1, h3, Bool.true_eq_false, if_false, hrun]
    refine ⟨rfl, ?_, ?_, ?_, ?_, ?_⟩
    · simp [FS.read, hfacts.1, hdc]
    · simp [FS.read, hfacts.2.1]
    · simp [FS.readonly, hfacts.1]
    · simp [FS.readonly, hfacts.2.1]
    · simp [FS.isfile, hfacts.2.2]

/-- Witness for C10: committing temp `_tempfiles/t` with content `"v"` to key
`s4://b/k` under the identity hasher. -/
theorem C10_witness :
    ((local_put_handler id true ⟨⟨[("_tempfiles/t", ⟨"v", false⟩)]⟩, [], 0⟩
        "s4://b/k" "_tempfiles/t").2 = .resp ⟨200, none⟩
    ∧ (local_put_handler id true ⟨⟨[("_tempfiles/t", ⟨"v", false⟩)]⟩, [], 0⟩
        "s4://b/k" "_tempfiles/t").1.fs.read (stripScheme "s4://b/k") = some "v"
    ∧ (local_put_handler id true ⟨⟨[("_tempfiles/t", ⟨"v", false⟩)]⟩, [], 0⟩
        "s4://b/k" "_tempfiles/t").1.fs.read
          (checksum_path (stripScheme "s4://b/k")) = some (id "v")
    ∧ (local_put_handler id true ⟨⟨[("_tempfiles/t", ⟨"v", false⟩)]⟩, [], 0⟩
        "s4://b/k" "_tempfiles/t").1.fs.readonly (stripScheme "s4://b/k") = true
    ∧ (local_put_handler id true ⟨⟨[("_tempfiles/t", ⟨"v", false⟩)]⟩, [], 0⟩
        "s4://b/k" "_tempfiles/t").1.fs.readonly
          (checksum_path (stripScheme "s4://b/k")) = true
    ∧ (local_put_handler id true ⟨⟨[("_tempfiles/t", ⟨"v", false⟩)]⟩, [], 0⟩
        "s4://b/k" "_tempfiles/t").1.fs.isfile "_tempfiles/t" = false) :=
  C10_local_put_endpoint.2.2 id ⟨⟨[("_tempfiles/t", ⟨"v", false⟩)]⟩, [], 0⟩
    "s4://b/k" "_tempfiles/t" "v" (by decide) (by decide) (by decide) (by decide)
    (by decide) (by decide) (by decide) (by decide)

-- Claim C5 --------------------------------------------------------------------

/-- Invariant I2 over the blob namespace, as an executable check: every
regular file outside the reserved underscore directories that is not itself
a `.xxh3` sidecar has its sidecar present. -/
def blobHasSidecarB (fs : FS) : Bool :=
  fs.files.all (fun e => strStarts e.1 "_" || strEnds e.1 ".xxh3"
    || fs.isfile (checksum_path e.1))

/-- The same invariant, stated over `isfile`. -/
def blobHasSidecarP (fs : FS) : Prop :=
  ∀ p, fs.isfile p = true → strStarts p "_" = false → strEnds p ".xxh3" = false →
    fs.isfile (checksum_path p) = true

theorem blobHasSidecarB_iff (fs : FS) :
    blobHasSidecarB fs = true ↔ blobHasSidecarP fs := by
  constructor
  · intro h p hp hu hx
    have hmem : (p, (fs.lookup p).get (by
        simpa [FS.isfile] using hp)) ∈ fs.files := by
      apply alookup_mem
      simp [FS.lookup]
    rw [blobHasSidecarB, List.all_eq_true] at h
    have := h _ hmem
    simp only [hu, hx, Bool.false_or] at this
    exact this
  · intro h
    rw [blobHasSidecarB, List.all_eq_true]
    intro e he
    have hfile : fs.isfile e.1 = true := by
      have : (e.1, e.2) ∈ fs.files := by simpa using he
      simpa [FS.isfile] using mem_alookup_isSome this
    by_cases hu : strStarts e.1 "_" = true
    · simp [hu]
    · by_cases hx : strEnds e.1 ".xxh3" = true
      · simp [hx]
      · have hub : strStarts e.1 "_" = false := by simpa using hu
        have hxb : strEnds e.1 ".xxh3" = false := by simpa using hx
        simp [h e.1 hfile hub hxb]

theorem blobHasSidecarP_write_sidecar (fs : FS) (path cs : String)
    (h : blobHasSidecarP fs) :
    blobHasSidecarP (fs.write (checksum_path path) cs) := by
  intro p hp hu hx
  rw [FS.isfile_write] at hp ⊢
  by_cases hpc : p = checksum_path path
  · exfalso
    rw [hpc, strEnds_checksum_path] at hx
    simp at hx
  · rw [if_neg hpc] at hp
    by_cases hcc : checksum_path p = checksum_path path
    · rw [if_pos hcc]
    · rw [if_neg hcc]
      exact h p hp hu hx

theorem blobHasSidecarP_rename (g : FS) (path temp : String)
    (hu : strStarts path "_" = false) (ht : strStarts temp "_" = true)
    (hside : g.isfile (checksum_path path) = true)
    (h : blobHasSidecarP g) :
    blobHasSidecarP (g.rename temp path) := by
  have hpt : path ≠ temp := by
    intro he
    rw [he, ht] at hu
    simp at hu
  by_cases hex : g.isfile temp = true
  · intro p hp hup hx
    rw [FS.isfile_rename _ _ _ _ hex] at hp
    rw [FS.isfile_rename _ _ _ _ hex]
    have hcne : checksum_path p ≠ temp := by
      intro he
      have := strStarts_checksum_path p hup
      rw [he, ht] at this
      simp at this
    by_cases hpp : p = path
    · subst hpp
      by_cases hcp : checksum_path p = p
      · rw [if_pos hcp]
      · rw [if_neg hcp, if_neg hcne]
        exact hside
    · rw [if_neg hpp] at hp
      by_cases hptemp : p = temp
      · rw [if_pos hptemp] at hp
        exact absurd hp (by simp)
      · rw [if_neg hptemp] at hp
        by_cases hcp : checksum_path p = path
        · rw [if_pos hcp]
        · rw [if_neg hcp, if_neg hcne]
          exact h p hp hup hx
  · have hnoop : g.rename temp path = g := by
      unfold FS.rename
      cases hl : g.lookup temp with
      | none => rfl
      | some d => exact absurd (by simp [FS.isfile, hl]) hex
    rw [hnoop]
    exact h

theorem blobHasSidecarP_chmod (g : FS) (x : String) (h : blobHasSidecarP g) :
    blobHasSidecarP (g.chmod_ro x) := by
  intro p hp hu hx
  rw [FS.isfile_chmod_ro] at hp ⊢
  exact h p hp hu hx

/-- The intermediate filesystem states of a commit, in source order: write
the checksum into the sidecar, rename temp to the blob path, chmod the
sidecar, chmod the blob (src/s4/server.py:135-140 and 69-78). -/
def commit_trace (fs : FS) (path temp cs : String) : List FS :=
  [fs.write (checksum_path path) cs,
   (fs.write (checksum_path path) cs).rename temp path,
   ((fs.write (checksum_path path) cs).rename temp path).chmod_ro (checksum_path path),
   (((fs.write (checksum_path path) cs).rename temp path).chmod_ro
     (checksum_path path)).chmod_ro path]

/-- Claim C5 fails as stated ("every server operation preserves ..."): with
blob `b/k` and its sidecar committed, a non-recursive delete of the prefix
`s4://b/k.xxh3` (a key naming the sidecar) removes the sidecar and leaves
the blob, answering 200 and breaking the blob-implies-sidecar invariant. -/
theorem C5_counterexample :
    blobHasSidecarB ⟨[("b/k", ⟨"v", true⟩), ("b/k.xxh3", ⟨"d", true⟩)]⟩ = true
    ∧ (delete_handler ⟨⟨[("b/k", ⟨"v", true⟩), ("b/k.xxh3", ⟨"d", true⟩)]⟩, [], 0⟩
        "s4://b/k.xxh3" false).2 = .resp ⟨200, none⟩
    ∧ blobHasSidecarB
        (delete_handler ⟨⟨[("b/k", ⟨"v", true⟩), ("b/k.xxh3", ⟨"d", true⟩)]⟩, [], 0⟩
          "s4://b/k.xxh3" false).1.fs = false := by decide

/-- Claim C5, amended: the put-path operations do preserve the invariant —
commit (both `confirm_put` and `local_put`) writes the checksum into the
sidecar before renaming the temp file into the blob path, every intermediate
state of the commit sequence keeps blob-implies-sidecar, and a successful
prepare_put leaves a sidecar without a blob (the prepared slot) while
preserving the invariant.  (A delete whose prefix names another key's
sidecar can still break it, per the counterexample.) -/
theorem C5_commit_invariant_amended :
    (∀ (fs : FS) (path temp cs : String) (fsi : FS),
        blobHasSidecarB fs = true →
        strStarts path "_" = false →
        strStarts temp "_" = true →
        fsi ∈ commit_trace fs path temp cs →
        blobHasSidecarB fsi = true)
    ∧ (∀ (fs : FS) (path temp cs : String),
        strEnds path "/" = false →
        (fs.write (checksum_path path) cs).isfile temp = true →
        confirm_put fs path temp cs
          = ((commit_trace fs path temp cs).getLastD fs, .ok ()))
    ∧ (∀ (hash : String → String) (fs : FS) (path temp content : String),
        fs.isfile path = false → strEnds path "/" = false →
        fs.isfile (checksum_path path) = false →
        fs.read temp = some content →
        local_put hash fs temp path
          = ((commit_trace fs path temp (hash content)).getLastD fs, .ok ()))
    ∧ (∀ (fs : FS) (path tp : String) (port : Nat) (fs1 : FS) (res : String × Nat),
        prepare_put fs path tp port = (fs1, .ok res) →
        (fs1.isfile (checksum_path path) = true ∧ fs1.isfile path = false
          ∧ (blobHasSidecarB fs = true → blobHasSidecarB fs1 = true))) := by
  refine ⟨?_, ?_, ?_, ?_⟩
  · intro fs path temp cs fsi hinv hpath htemp hmem
    rw [blobHasSidecarB_iff] at hinv ⊢
    have h1 : blobHasSidecarP (fs.write (checksum_path path) cs) :=
      blobHasSidecarP_write_sidecar fs path cs hinv
    have hside : (fs.write (checksum_path path) cs).isfile (checksum_path path) = true := by
      rw [FS.isfile_write]
      simp
    have h2 : blobHasSidecarP ((fs.write (checksum_path path) cs).rename temp path) :=
      blobHasSidecarP_rename _ path temp hpath htemp hside h1
    have h3 := blobHasSidecarP_chmod _ (checksum_path path) h2
    have h4 := blobHasSidecarP_chmod _ path h3
    simp only [commit_trace, List.mem_cons, List.not_mem_nil, or_false] at hmem
    rcases hmem with rfl | rfl | rfl | rfl
    · exact h1
    · exact h2
    · exact h3
    · exact h4
  · intro fs path temp cs h5 hex
    simp [confirm_put, h5, hex, commit_trace]
  · intro hash fs path temp content h4 h5 h6 h7
    rw [local_put_success hash fs temp path content h4 h5 h6 h7]
    simp [commit_trace]
  · intro fs path tp port fs1 res h
    have hcp : path ≠ checksum_path path :=
      fun hc => (checksum_path_ne_self path) hc.symm
    simp only [prepare_put] at h
    by_cases h1 : fs.isfile path = true
    · rw [if_pos h1] at h
      exact absurd (congrArg Prod.snd h) (by simp)
    · have h1b : fs.isfile path = false := by simpa using h1
      rw [if_neg (by simp [h1b])] at h
      by_cases h2 : strEnds path "/" = true
      · rw [if_pos (by simp [h2])] at h
        exact absurd (congrArg Prod.snd h) (by simp)
      · have h2b : strEnds path "/" = false := by simpa using h2
        rw [if_neg (by simp [h2b])] at h
        by_cases h3 : fs.isfile (checksum_path path) = true
        · rw [if_pos (by simp [h3])] at h
          exact absurd (congrArg Prod.snd h) (by simp)
        · have h3b : fs.isfile (checksum_path path) = false := by simpa using h3
          rw [if_neg (by simp [h3b])] at h
          have hfs1 : fs1 = fs.write (checksum_path path) "" :=
            (congrArg Prod.fst h).symm
          subst hfs1
          refine ⟨?_, ?_, ?_⟩
          · rw [FS.isfile_write]
            simp
          · rw [FS.isfile_write]
            simp [hcp, h1b]
          · intro hinv
            rw [blobHasSidecarB_iff] at hinv ⊢
            exact blobHasSidecarP_write_sidecar fs path "" hinv

/-- Witness for the amended C5: committing temp `_tempfiles/t` to `b/k` on a
filesystem already holding blob `b/old` with its sidecar; the final commit
state satisfies the invariant, and the commit equals the last trace state. -/
theorem C5_witness :
    blobHasSidecarB ⟨[("b/old", ⟨"x", true⟩), ("b/old.xxh3", ⟨"y", true⟩),
        ("_tempfiles/t", ⟨"v", false⟩)]⟩ = true
    ∧ blobHasSidecarB
        ((commit_trace ⟨[("b/old", ⟨"x", true⟩), ("b/old.xxh3", ⟨"y", true⟩),
            ("_tempfiles/t", ⟨"v", false⟩)]⟩ "b/k" "_tempfiles/t" "d").getLastD
          ⟨[("b/old", ⟨"x", true⟩), ("b/old.xxh3", ⟨"y", true⟩),
            ("_tempfiles/t", ⟨"v", false⟩)]⟩) = true
    ∧ confirm_put ⟨[("b/old", ⟨"x", true⟩), ("b/old.xxh3", ⟨"y", true⟩),
          ("_tempfiles/t", ⟨"v", false⟩)]⟩ "b/k" "_tempfiles/t" "d"
        = ((commit_trace ⟨[("b/old", ⟨"x", true⟩), ("b/old.xxh3", ⟨"y", true⟩),
            ("_tempfiles/t", ⟨"v", false⟩)]⟩ "b/k" "_tempfiles/t" "d").getLastD
          ⟨[("b/old", ⟨"x", true⟩), ("b/old.xxh3", ⟨"y", true⟩),
            ("_tempfiles/t", ⟨"v", false⟩)]⟩, .ok ()) := by
  refine ⟨by decide, ?_, ?_⟩
  · exact C5_commit_invariant_amended.1
      ⟨[("b/old", ⟨"x", true⟩), ("b/old.xxh3", ⟨"y", true⟩), ("_tempfiles/t", ⟨"v", false⟩)]⟩
      "b/k" "_tempfiles/t" "d" _ (by decide) (by decide) (by decide) (by decide)
  · rw [C5_commit_invariant_amended.2.1
      ⟨[("b/old", ⟨"x", true⟩), ("b/old.xxh3", ⟨"y", true⟩), ("_tempfiles/t", ⟨"v", false⟩)]⟩
      "b/k" "_tempfiles/t" "d" (by decide) (by decide)]

-- Claim C8 --------------------------------------------------------------------

theorem gc_job_step_mono (mt now : Nat) (st : FS × List (String × Job))
    (e : String × Job) (st1 : FS × List (String × Job))
    (h : gc_job_step mt now st e = .ok st1) (q : String)
    (hq : st.1.isfile q = false) : st1.1.isfile q = false := by
  unfold gc_job_step at h
  split at h
  · split at h
    · cases h
      exact hq
    · split at h
      · simp at h
      · split at h
        · cases h
          exact hq
        · cases h
          rw [FS.isfile_s4_delete]
          split
          · rfl
          · exact hq
  · cases h
    exact hq

theorem gc_job_step_table_none (mt now : Nat) (st : FS × List (String × Job))
    (e : String × Job) (st1 : FS × List (String × Job))
    (h : gc_job_step mt now st e = .ok st1) (u : String)
    (hu : alookup st.2 u = none) : alookup st1.2 u = none := by
  unfold gc_job_step at h
  split at h
  · split at h
    · cases h
      exact alookup_aerase_none _ _ _ hu
    · split at h
      · simp at h
      · split at h
        · cases h
          exact alookup_aerase_none _ _ _ hu
        · cases h
          exact alookup_aerase_none _ _ _ hu
  · cases h
    exact hu

theorem gc_fold_mono (mt now : Nat) (l : List (String × Job))
    (st out : FS × List (String × Job))
    (h : gc_fold mt now st l = .ok out) (q : String)
    (hq : st.1.isfile q = false) : out.1.isfile q = false := by
  induction l generalizing st with
  | nil =>
    simp only [gc_fold] at h
    cases h
    exact hq
  | cons hd tl ih =>
    simp only [gc_fold] at h
    cases hstep : gc_job_step mt now st hd with
    | error e =>
      rw [hstep] at h
      simp at h
    | ok st1 =>
      rw [hstep] at h
      exact ih st1 h (gc_job_step_mono mt now st hd st1 hstep q hq)

theorem gc_fold_table_none (mt now : Nat) (l : List (String × Job))
    (st out : FS × List (String × Job))
    (h : gc_fold mt now st l = .ok out) (u : String)
    (hu : alookup st.2 u = none) : alookup out.2 u = none := by
  induction l generalizing st with
  | nil =>
    simp only [gc_fold] at h
    cases h
    exact hu
  | cons hd tl ih =>
    simp only [gc_fold] at h
    cases hstep : gc_job_step mt now st hd with
    | error e =>
      rw [hstep] at h
      simp at h
    | ok st1 =>
      rw [hstep] at h
      exact ih st1 h (gc_job_step_table_none mt now st hd st1 hstep u hu)

/-- Every expired put job in the swept snapshot ends with its record gone
and its sidecar and temp file deleted. -/
theorem gc_fold_expired (mt now : Nat) (l : List (String × Job))
    (st out : FS × List (String × Job))
    (h : gc_fold mt now st l = .ok out)
    (uid : String) (t0 : Nat) (fut : RunResult) (tp p : String)
    (hmem : (uid, Job.putJob t0 fut tp p) ∈ l)
    (hexp : now - t0 > mt) :
    alookup out.2 uid = none
    ∧ out.1.isfile (checksum_path p) = false ∧ out.1.isfile tp = false := by
  induction l generalizing st with
  | nil => simp at hmem
  | cons hd tl ih =>
    simp only [gc_fold] at h
    cases hstep : gc_job_step mt now st hd with
    | error e =>
      rw [hstep] at h
      simp at h
    | ok st1 =>
      rw [hstep] at h
      rcases List.mem_cons.mp hmem with he | he
      · subst he
        unfold gc_job_step at hstep
        simp only [Job.start, Job.path?, Job.temp_path?] at hstep
        rw [if_pos hexp] at hstep
        by_cases hsl : strEnds p "/" = true
        · rw [if_pos hsl] at hstep
          simp at hstep
        · rw [if_neg hsl] at hstep
          cases hstep
          refine ⟨?_, ?_, ?_⟩
          · apply gc_fold_table_none mt now tl _ _ h
            simp [alookup_aerase]
          · apply gc_fold_mono mt now tl _ _ h
            rw [FS.isfile_s4_delete]
            simp
          · apply gc_fold_mono mt now tl _ _ h
            rw [FS.isfile_s4_delete]
            simp
      · exact ih st1 h he
  
/-- Claim C8 fails as stated: the expired-job sweep deletes the sidecar
unconditionally, not only when it is empty.  Here the sidecar of `b/k`
holds the non-empty content `"abc"` and is deleted anyway. -/
theorem C8_counterexample :
    ("abc" : String) ≠ ""
    ∧ (⟨⟨[("b/k.xxh3", ⟨"abc", false⟩)]⟩,
        [("u", Job.putJob 0 ⟨0, "", "d"⟩ "_tempfiles/t" "b/k")], 200⟩ : Server).fs.read
        (checksum_path "b/k") = some "abc"
    ∧ gc_expired_jobs 100
        ⟨⟨[("b/k.xxh3", ⟨"abc", false⟩)]⟩,
          [("u", Job.putJob 0 ⟨0, "", "d"⟩ "_tempfiles/t" "b/k")], 200⟩
        = .ok ⟨⟨[]⟩, [], 200⟩ :=
  ⟨by decide, by decide, by rfl⟩

/-- Claim C8, amended: on a GC pass every job record older than max_timeout
is removed from the table and (for put jobs) its temp file and its sidecar
are deleted — the sidecar unconditionally, whatever its content; the sweep
never creates files; and a prepare_put followed by client silence leaves
neither blob nor sidecar once a sweep runs after max_timeout. -/
theorem C8_gc_amended :
    (∀ (mt : Nat) (srv srv2 : Server),
        gc_expired_jobs mt srv = .ok srv2 →
        ∀ (uid : String) (t0 : Nat) (fut : RunResult) (tp p : String),
          (uid, Job.putJob t0 fut tp p) ∈ srv.io_jobs →
          srv.now - t0 > mt →
          (alookup srv2.io_jobs uid = none
            ∧ srv2.fs.isfile (checksum_path p) = false
            ∧ srv2.fs.isfile tp = false))
    ∧ (∀ (mt : Nat) (srv srv2 : Server) (q : String),
        gc_expired_jobs mt srv = .ok srv2 →
        srv.fs.isfile q = false → srv2.fs.isfile q = false)
    ∧ (∀ (env : PutEnv) (srv : Server) (key u : String) (mt now2 : Nat) (srv2 : Server),
        strContains key ' ' = false → env.owned = true →
        strStarts (stripScheme key) "_" = false →
        srv.fs.isfile (stripScheme key) = false →
        strEnds (stripScheme key) "/" = false →
        srv.fs.isfile (checksum_path (stripScheme key)) = false →
        env.uuids = [u] →
        alookup srv.io_jobs u = none →
        env.temp_path ≠ checksum_path (stripScheme key) →
        srv.fs.isfile env.temp_path = false →
        now2 - srv.now > mt →
        gc_expired_jobs mt
            { (prepare_put_handler env srv key).1 with now := now2 } = .ok srv2 →
        (srv2.fs.isfile (stripScheme key) = false
          ∧ srv2.fs.isfile (checksum_path (stripScheme key)) = false
          ∧ srv2.fs.isfile env.temp_path = false)) := by
  have main : ∀ (mt : Nat) (srv srv2 : Server),
      gc_expired_jobs mt srv = .ok srv2 →
      ∀ (uid : String) (t0 : Nat) (fut : RunResult) (tp p : String),
        (uid, Job.putJob t0 fut tp p) ∈ srv.io_jobs →
        srv.now - t0 > mt →
        (alookup srv2.io_jobs uid = none
          ∧ srv2.fs.isfile (checksum_path p) = false
          ∧ srv2.fs.isfile tp = false) := by
    intro mt srv srv2 h uid t0 fut tp p hmem hexp
    unfold gc_expired_jobs at h
    cases hf : gc_fold mt srv.now (srv.fs, srv.io_jobs) srv.io_jobs with
    | error e =>
      rw [hf] at h
      simp [Except.map] at h
    | ok out =>
      rw [hf] at h
      simp only [Except.map] at h
      cases h
      exact gc_fold_expired mt srv.now srv.io_jobs _ out hf uid t0 fut tp p hmem hexp
  have mono : ∀ (mt : Nat) (srv srv2 : Server) (q : String),
      gc_expired_jobs mt srv = .ok srv2 →
      srv.fs.isfile q = false → srv2.fs.isfile q = false := by
    intro mt srv srv2 q h hq
    unfold gc_expired_jobs at h
    cases hf : gc_fold mt srv.now (srv.fs, srv.io_jobs) srv.io_jobs with
    | error e =>
      rw [hf] at h
      simp [Except.map] at h
    | ok out =>
      rw [hf] at h
      simp only [Except.map] at h
      cases h
      exact gc_fold_mono mt srv.now srv.io_jobs _ out hf q hq
  refine ⟨main, mono, ?_⟩
  intro env srv key u mt now2 srv2 h1 h2 h3 h4 h5 h6 h7 h8 h9 h10 hexp hgc
  have hprep := prepare_put_handler_normal env srv key u h1 h2 h3 h4 h5 h6 h7 h8 h9 h10
  have hfst := congrArg Prod.fst hprep
  simp only at hfst
  rw [hfst] at hgc
  have hmem : (u, Job.putJob srv.now env.recv_future env.temp_path (stripScheme key))
      ∈ ({ srv with
            fs := srv.fs.write (checksum_path (stripScheme key)) "",
            io_jobs := setJob ((u, Job.pending srv.now) :: srv.io_jobs) u
              (Job.putJob srv.now env.recv_future env.temp_path (stripScheme key)) } :
          Server).io_jobs := by
    simp [setJob]
  have hm := main mt _ srv2 hgc u srv.now env.recv_future env.temp_path (stripScheme key)
    hmem hexp
  refine ⟨?_, hm.2.1, hm.2.2⟩
  apply mono mt _ srv2 (stripScheme key) hgc
  rw [FS.isfile_write]
  simp only [if_neg (fun hc : stripScheme key = checksum_path (stripScheme key) =>
    (checksum_path_ne_self (stripScheme key)) hc.symm)]
  exact h4

/-- Witness for the amended C8: one expired put job with a reserved sidecar
and temp file; after the sweep the record, sidecar and temp file are gone,
and the never-created blob is still absent. -/
theorem C8_witness :
    alookup (⟨⟨[]⟩, [], 200⟩ : Server).io_jobs "u" = none
    ∧ (⟨⟨[]⟩, [], 200⟩ : Server).fs.isfile (checksum_path "b/k") = false
    ∧ (⟨⟨[]⟩, [], 200⟩ : Server).fs.isfile "_tempfiles/t" = false :=
  C8_gc_amended.1 100
    ⟨⟨[("b/k.xxh3", ⟨"", false⟩), ("_tempfiles/t", ⟨"v", false⟩)]⟩,
      [("u", Job.putJob 0 ⟨0, "", "d"⟩ "_tempfiles/t" "b/k")], 200⟩
    ⟨⟨[]⟩, [], 200⟩ (by rfl) "u" 0 ⟨0, "", "d"⟩ "_tempfiles/t" "b/k"
    (by decide) (by decide)
